import Mathlib

/-!
Shallow embedding of the UniversalDeepResearch CDK deployment descriptors
(src/infrastructure/cdk-ts): the three stack constructors
(`BedrockGatewayStack`, `UDRBackendStack`, `UDRFrontendStack`) and the
application wiring that threads outputs between them, together with
theorems about the configuration they synthesize.

Cloud-resolved attributes (load-balancer DNS names, the Amplify default
domain, the application id, the stack region) are CloudFormation tokens in
the source; here they are explicit string parameters of the constructors,
so every definition is an executable function of its inputs.
-/

namespace UDR

/-- JavaScript truthiness of an optional string: `undefined` and `""` are
falsy, every other string is truthy. Models `if (x)` on a `string?`. -/
def truthy : Option String → Bool
  | none => false
  | some s => s ≠ ""

/-- Models the JavaScript expression `x || dflt` on an optional string:
the default is used when `x` is `undefined` or the empty string. -/
def jsOr (x : Option String) (dflt : String) : String :=
  match x with
  | none => dflt
  | some s => if s = "" then dflt else s

/-- First-match lookup in an environment-variable table. -/
def envLookup (k : String) : List (String × String) → Option String
  | [] => none
  | (k2, v) :: rest => if k2 = k then some v else envLookup k rest

/-! ### Gateway stack (`gateway-stack.ts`) -/

/-- The relevant configuration produced by `BedrockGatewayStack`. -/
structure BedrockGatewayStack where
  containerPort : Nat
  listenerPort : Nat
  gatewayUrl : String
  outputs : List (String × String)
  deriving Repr, DecidableEq

/-- `BedrockGatewayStack`'s constructor, parameterized by the resolved
DNS name of its application load balancer. -/
def mkBedrockGatewayStack (albDnsName : String) : BedrockGatewayStack :=
  let gatewayUrl := "http://" ++ albDnsName
  { containerPort := 8080
    listenerPort := 80
    gatewayUrl := gatewayUrl
    outputs := [("GatewayURL", gatewayUrl), ("GatewayURLExport", gatewayUrl)] }

/-! ### Backend stack (`backend-stack.ts`) -/

/-- An ECS container health check (`healthCheck` block), durations in
seconds. -/
structure HealthCheck where
  command : List String
  interval : Nat
  timeout : Nat
  retries : Nat
  startPeriod : Nat
  deriving Repr, DecidableEq

/-- An ALB target-group health check. -/
structure TargetGroupHealthCheck where
  path : String
  healthyHttpCodes : String
  interval : Nat
  timeout : Nat
  healthyThresholdCount : Nat
  unhealthyThresholdCount : Nat
  deriving Repr, DecidableEq

/-- An ECS container definition (the fields the claims concern). -/
structure ContainerDefinition where
  name : String
  environment : List (String × String)
  secrets : List (String × String)
  healthCheck : HealthCheck
  containerPort : Nat
  deriving Repr, DecidableEq

/-- An ALB listener action. -/
inductive ListenerAction where
  | forward (targetGroups : List String)
  deriving Repr, DecidableEq

/-- An ALB `httpHeader` listener condition: a header name and the list of
match patterns (`*` matches any sequence, `?` any single character). -/
structure HttpHeaderCondition where
  headerName : String
  patterns : List String
  deriving Repr, DecidableEq

/-- A prioritized ALB listener rule. -/
structure ListenerRule where
  name : String
  priority : Nat
  conditions : List HttpHeaderCondition
  action : ListenerAction
  deriving Repr, DecidableEq

/-- An ALB listener: a default action plus prioritized rules. -/
structure ApplicationListener where
  port : Nat
  defaultAction : ListenerAction
  rules : List ListenerRule
  deriving Repr, DecidableEq

/-- Wildcard match of a pattern against a string, both as character lists:
`*` matches any (possibly empty) sequence, `?` exactly one character. -/
def globMatch : List Char → List Char → Bool
  | [], s => s.isEmpty
  | p :: ps, s =>
    if p = '*' then (List.range (s.length + 1)).any fun n => globMatch ps (s.drop n)
    else
      match s with
      | [] => false
      | c :: cs => (p = '?' || p = c) && globMatch ps cs

/-- Whether an `httpHeader` condition matches a request's header list:
some header of that name has a value matching one of the patterns. -/
def conditionMatches (c : HttpHeaderCondition) (headers : List (String × String)) : Bool :=
  headers.any fun h =>
    h.fst = c.headerName && c.patterns.any fun p => globMatch p.toList h.snd.toList

/-- Whether every condition of a rule matches the request. -/
def ruleMatches (r : ListenerRule) (headers : List (String × String)) : Bool :=
  r.conditions.all fun c => conditionMatches c headers

/-- The lowest-priority rule of a list (ALB evaluates rules in priority
order, lowest value first). -/
def bestRule (rs : List ListenerRule) : Option ListenerRule :=
  rs.foldl
    (fun acc r =>
      match acc with
      | none => some r
      | some b => if r.priority < b.priority then some r else some b)
    none

/-- Routing semantics of a listener: the matching rule of lowest priority
decides the action; otherwise the request falls through to the default
action. Returns the deciding rule's name (`none` for the default action)
together with the action taken. -/
def routeWithSource (l : ApplicationListener) (headers : List (String × String)) :
    Option String × ListenerAction :=
  match bestRule (l.rules.filter fun r => ruleMatches r headers) with
  | some r => (some r.name, r.action)
  | none => (none, l.defaultAction)

/-- The relevant configuration produced by `UDRBackendStack`. -/
structure UDRBackendStack where
  clusterName : String
  secretStringTemplate : String
  generateStringKey : String
  container : ContainerDefinition
  serviceName : String
  targetGroupHealthCheck : TargetGroupHealthCheck
  listener : ApplicationListener
  backendUrl : String
  outputs : List (String × String)
  deriving Repr, DecidableEq

/-- `UDRBackendStack`'s constructor: `gatewayUrl` is the required props
input, `albDnsName` the resolved DNS name of the backend load balancer. -/
def mkUDRBackendStack (gatewayUrl : String) (albDnsName : String) : UDRBackendStack :=
  let backendUrl := "http://" ++ albDnsName
  { clusterName := "udr-backend-cluster"
    secretStringTemplate := "\x7b\"tavily_api_key\":\"\"\x7d"
    generateStringKey := "nvidia_api_key"
    container :=
      { name := "BackendContainer"
        environment :=
          [ ("HOST", "0.0.0.0")
          , ("PORT", "8000")
          , ("LOG_LEVEL", "info")
          , ("DEFAULT_MODEL", "claude-3-sonnet")
          , ("LLM_BASE_URL", gatewayUrl ++ "/v1")
          , ("LLM_API_KEY_FILE", "/tmp/dummy_key.txt")
          , ("TAVILY_API_KEY_FILE", "/tmp/tavily_key.txt")
          , ("MAX_TOPICS", "3")
          , ("MAX_SEARCH_PHRASES", "5") ]
        secrets :=
          [ ("NVIDIA_API_KEY", "nvidia_api_key")
          , ("TAVILY_API_KEY", "tavily_api_key") ]
        healthCheck :=
          { command := ["CMD-SHELL", "curl -f http://localhost:8000/ || exit 1"]
            interval := 30
            timeout := 5
            retries := 3
            startPeriod := 60 }
        containerPort := 8000 }
    serviceName := "udr-backend-service"
    targetGroupHealthCheck :=
      { path := "/"
        healthyHttpCodes := "200"
        interval := 30
        timeout := 5
        healthyThresholdCount := 2
        unhealthyThresholdCount := 3 }
    listener :=
      { port := 80
        defaultAction := ListenerAction.forward ["BackendTargets"]
        rules :=
          [ { name := "CorsAction"
              priority := 100
              conditions := [{ headerName := "Origin", patterns := ["*.amplifyapp.com"] }]
              action := ListenerAction.forward ["BackendTargets"] } ] }
    backendUrl := backendUrl
    outputs :=
      [ ("BackendURL", backendUrl)
      , ("BackendALBArn", "arn:" ++ albDnsName)
      , ("BackendClusterName", "udr-backend-cluster")
      , ("BackendServiceName", "udr-backend-service") ] }

/-! ### Frontend stack (`frontend-stack.ts`) -/

/-- `UDRFrontendStackProps`: all three fields are optional in the source
(`backendUrl?`, `githubRepo?`, `githubToken?`). -/
structure UDRFrontendStackProps where
  backendUrl : Option String
  githubRepo : Option String
  githubToken : Option String
  deriving Repr, DecidableEq

/-- An Amplify branch as added by `amplifyApp.addBranch`. -/
structure AmplifyBranch where
  autoBuild : Bool
  branchName : String
  environmentVariables : List (String × String)
  deriving Repr, DecidableEq

/-- The Amplify build specification (`codebuild.BuildSpec.fromObject`). -/
structure BuildSpec where
  version : String
  preBuildCommands : List String
  buildCommands : List String
  artifactsBaseDirectory : String
  artifactsFiles : List String
  cachePaths : List String
  envVariables : List (String × String)
  deriving Repr, DecidableEq

/-- A GitHub source-code binding: the credential is referenced by its
Secrets Manager name, never by value. -/
structure GitHubSourceCodeProvider where
  owner : String
  repository : String
  oauthTokenSecretName : String
  deriving Repr, DecidableEq

/-- The relevant configuration produced by `UDRFrontendStack`. -/
structure UDRFrontendStack where
  appName : String
  sourceCodeProvider : Option GitHubSourceCodeProvider
  buildSpec : BuildSpec
  environmentVariables : List (String × String)
  mainBranch : AmplifyBranch
  webhookBranch : Option AmplifyBranch
  frontendUrl : String
  outputs : List (String × String)
  deriving Repr, DecidableEq

/-- The frontend build environment table (`environmentVariables` in
`frontend-stack.ts`). The source sets `NEXT_PUBLIC_DRY_RUN` to the literal
string `'true'` unconditionally (its inline comment reads
`Enable dry run when no backend`). -/
def environmentVariables (props : UDRFrontendStackProps) : List (String × String) :=
  [ ("NEXT_PUBLIC_BACKEND_BASE_URL", jsOr props.backendUrl "http://localhost:8000")
  , ("NEXT_PUBLIC_BACKEND_PORT", "80")
  , ("NEXT_PUBLIC_API_VERSION", "v2")
  , ("NEXT_PUBLIC_ENABLE_V2_API", "true")
  , ("NEXT_PUBLIC_DRY_RUN", "true")
  , ("_LIVE_UPDATES", "[\x7b\"name\":\"Next.js version\",\"pkg\":\"next\",\"type\":\"npm\",\"version\":\"latest\"\x7d]") ]

/-- The Amplify build specification constructed before the
connected/disconnected branch in `frontend-stack.ts`. -/
def frontendBuildSpec (props : UDRFrontendStackProps) : BuildSpec :=
  { version := "1.0"
    preBuildCommands := ["cd frontend", "npm ci --cache .npm --prefer-offline"]
    buildCommands := ["npm run build"]
    artifactsBaseDirectory := "frontend/.next"
    artifactsFiles := ["**/*"]
    cachePaths := ["frontend/node_modules/**/*", "frontend/.next/cache/**/*"]
    envVariables := environmentVariables props }

/-- The webhook URL emitted for manual deployments
(`token=<token>` is a placeholder left in the source). -/
def webhookUrl (appId region : String) : String :=
  "https://webhooks.amplify." ++ region ++ ".amazonaws.com/prod/webhooks?id="
    ++ appId ++ "&token=<token>&operation=startbuild"

/-- The connected branch of the constructor: app bound to the GitHub
repository (`owner/repository` split on `/`, OAuth token referenced by its
Secrets Manager name), tracked branch `main` with `autoBuild: true`. -/
def connectedFrontendStack (props : UDRFrontendStackProps)
    (defaultDomain appId : String) : UDRFrontendStack :=
  let env := environmentVariables props
  let mainBranch : AmplifyBranch :=
    { autoBuild := true, branchName := "main", environmentVariables := env }
  { appName := "universal-deep-research"
    sourceCodeProvider := some
      { owner := ((props.githubRepo.getD "").splitOn "/").getD 0 ""
        repository := ((props.githubRepo.getD "").splitOn "/").getD 1 ""
        oauthTokenSecretName := props.githubToken.getD "" }
    buildSpec := frontendBuildSpec props
    environmentVariables := env
    mainBranch := mainBranch
    webhookBranch := none
    frontendUrl := "https://" ++ mainBranch.branchName ++ "." ++ defaultDomain
    outputs :=
      [ ("FrontendURL", "https://" ++ mainBranch.branchName ++ "." ++ defaultDomain)
      , ("AmplifyAppId", appId)
      , ("AmplifyAppName", "universal-deep-research") ] }

/-- The disconnected branch of the constructor: same app and tracked
branch, but with no source-repository binding. -/
def disconnectedFrontendStack (props : UDRFrontendStackProps)
    (defaultDomain appId : String) : UDRFrontendStack :=
  let env := environmentVariables props
  let mainBranch : AmplifyBranch :=
    { autoBuild := true, branchName := "main", environmentVariables := env }
  { appName := "universal-deep-research"
    sourceCodeProvider := none
    buildSpec := frontendBuildSpec props
    environmentVariables := env
    mainBranch := mainBranch
    webhookBranch := none
    frontendUrl := "https://" ++ mainBranch.branchName ++ "." ++ defaultDomain
    outputs :=
      [ ("FrontendURL", "https://" ++ mainBranch.branchName ++ "." ++ defaultDomain)
      , ("AmplifyAppId", appId)
      , ("AmplifyAppName", "universal-deep-research") ] }

/-- The trailing `if (!props.githubRepo)` block: adds the non-auto-building
`webhook` placeholder branch and the `WebhookURL` output. -/
def addWebhookBranch (s : UDRFrontendStack) (appId region : String) : UDRFrontendStack :=
  { s with
    webhookBranch := some
      { autoBuild := false, branchName := "webhook", environmentVariables := [] }
    outputs := s.outputs ++ [("WebhookURL", webhookUrl appId region)] }

/-- `UDRFrontendStack`'s constructor. `defaultDomain`, `appId` and
`region` stand for the platform-resolved Amplify default domain, the
Amplify application id and the stack region (CloudFormation tokens in the
source). The connected path is taken when `githubRepo` and `githubToken`
are both truthy; the constructor never raises on a partial configuration.
The webhook branch and its output are added when `githubRepo` is falsy. -/
def mkUDRFrontendStack (props : UDRFrontendStackProps)
    (defaultDomain appId region : String) : UDRFrontendStack :=
  let base : UDRFrontendStack :=
    if truthy props.githubRepo && truthy props.githubToken then
      connectedFrontendStack props defaultDomain appId
    else
      disconnectedFrontendStack props defaultDomain appId
  if truthy props.githubRepo then base
  else addWebhookBranch base appId region

/-! ### Application wiring (the main CDK app entry point) -/

/-- The CDK context parameters the app reads (`github_repo`,
`github_token_secret`), both optional. -/
structure DeployContext where
  githubRepo : Option String
  githubTokenSecret : Option String
  deriving Repr, DecidableEq

/-- The cloud-resolved attributes threaded through synthesis: load
balancer DNS names, the Amplify default domain and app id, the region. -/
structure ResolvedAttrs where
  gatewayAlbDns : String
  backendAlbDns : String
  amplifyDefaultDomain : String
  amplifyAppId : String
  region : String
  deriving Repr, DecidableEq

/-- A stack node of the app's construct tree with its explicit
`addDependency` edges. -/
structure StackNode where
  name : String
  dependsOn : List String
  deriving Repr, DecidableEq

/-- The three stack nodes with the dependencies declared by
`backendStack.addDependency(gatewayStack)` and
`frontendStack.addDependency(backendStack)`. -/
def appStackNodes : List StackNode :=
  [ { name := "BedrockGatewayStack", dependsOn := [] }
  , { name := "UDRBackendStack", dependsOn := ["BedrockGatewayStack"] }
  , { name := "UDRFrontendStack", dependsOn := ["UDRBackendStack"] } ]

/-- The resource graph produced by one synthesis of the app. -/
structure SynthesizedApp where
  gatewayStack : BedrockGatewayStack
  backendStack : UDRBackendStack
  frontendStack : UDRFrontendStack
  nodes : List StackNode
  deriving Repr, DecidableEq

/-- The app entry point: constructs the gateway stack, feeds
`gatewayStack.gatewayUrl` into the backend stack's props, feeds
`backendStack.backendUrl` and the context parameters into the frontend
stack's props, declares the two dependencies, and synthesizes. -/
def appSynth (ctx : DeployContext) (attrs : ResolvedAttrs) : SynthesizedApp :=
  let gatewayStack := mkBedrockGatewayStack attrs.gatewayAlbDns
  let backendStack := mkUDRBackendStack gatewayStack.gatewayUrl attrs.backendAlbDns
  let frontendStack := mkUDRFrontendStack
    { backendUrl := some backendStack.backendUrl
      githubRepo := ctx.githubRepo
      githubToken := ctx.githubTokenSecret }
    attrs.amplifyDefaultDomain attrs.amplifyAppId attrs.region
  { gatewayStack := gatewayStack
    backendStack := backendStack
    frontendStack := frontendStack
    nodes := appStackNodes }

/-- An ordering of stack names respects the dependency edges when every
stack appears after all of its declared dependencies. -/
def respectsDeps (nodes : List StackNode) (order : List String) : Bool :=
  nodes.all fun n => n.dependsOn.all fun d => order.indexOf d < order.indexOf n.name

/-- All ways to insert an element into a list. -/
def insertEverywhere (x : String) : List String → List (List String)
  | [] => [[x]]
  | y :: ys => (x :: y :: ys) :: (insertEverywhere x ys).map fun l => y :: l

/-- All permutations of a list of stack names. -/
def stackPerms : List String → List (List String)
  | [] => [[]]
  | x :: xs => (stackPerms xs).flatMap (insertEverywhere x)

/-- All provisioning orders: permutations of the stack names that respect
the declared dependencies. -/
def validDeployOrders (nodes : List StackNode) : List (List String) :=
  (stackPerms (nodes.map fun n => n.name)).filter (respectsDeps nodes)

/-- Teardown removes stacks in the reverse of the provisioning order. -/
def teardownOrder (order : List String) : List String :=
  order.reverse

/-! ### Helper lemmas -/

theorem http_prefix_ne_empty (s : String) : "http://" ++ s ≠ "" := by
  intro h
  have hl := congrArg String.length h
  simp [String.length_append] at hl
  exact absurd hl.1 (by decide)

theorem jsOr_some_of_ne (s dflt : String) (h : s ≠ "") : jsOr (some s) dflt = s := by
  simp [jsOr, h]

theorem mk_frontend_buildSpec (props : UDRFrontendStackProps) (d a r : String) :
    (mkUDRFrontendStack props d a r).buildSpec = frontendBuildSpec props := by
  unfold mkUDRFrontendStack
  split <;> split <;> rfl

theorem mk_frontend_env (props : UDRFrontendStackProps) (d a r : String) :
    (mkUDRFrontendStack props d a r).environmentVariables = environmentVariables props := by
  unfold mkUDRFrontendStack
  split <;> split <;> rfl

theorem mk_frontend_mainBranch (props : UDRFrontendStackProps) (d a r : String) :
    (mkUDRFrontendStack props d a r).mainBranch =
      { autoBuild := true, branchName := "main"
        environmentVariables := environmentVariables props } := by
  unfold mkUDRFrontendStack
  split <;> split <;> rfl

theorem mk_frontend_url (props : UDRFrontendStackProps) (d a r : String) :
    (mkUDRFrontendStack props d a r).frontendUrl =
      "https://" ++ (mkUDRFrontendStack props d a r).mainBranch.branchName ++ "." ++ d := by
  unfold mkUDRFrontendStack
  split <;> split <;> rfl

theorem environmentVariables_congr (p1 p2 : UDRFrontendStackProps)
    (h : p1.backendUrl = p2.backendUrl) :
    environmentVariables p1 = environmentVariables p2 := by
  simp [environmentVariables, h]

/-! ### Claim theorems -/

/-- C1: the claim says the dry-run flag is `"true"` exactly when no
backend URL was resolvable and `"false"` when one is supplied. The source
sets `NEXT_PUBLIC_DRY_RUN` to `'true'` unconditionally, contradicting its
own inline comment (`Enable dry run when no backend`) and the repository's
deployment guide, which documents the flag's default as `false`: here a
resolvable backend URL is supplied and the flag still reads `"true"`. -/
theorem dryRun_flag_true_despite_resolvable_backend :
    envLookup "NEXT_PUBLIC_DRY_RUN"
      ((mkUDRFrontendStack
          { backendUrl := some "http://backend.example"
            githubRepo := none, githubToken := none }
          "d1.amplifyapp.com" "app1" "us-east-1").environmentVariables)
      = some "true" := by
  rfl

/-- C2 counterexample: with the repository identifier supplied and the
credential reference omitted, the constructor does not fail: it builds the
application shell (`universal-deep-research`) via the disconnected path,
so the claim that provisioning raises `ConfigurationFailure` and creates
no application shell is false, and so is the claim that the disconnected
path is taken only when both inputs are absent. -/
theorem frontend_repo_without_credential_creates_shell :
    (mkUDRFrontendStack
        { backendUrl := some "http://backend.example"
          githubRepo := some "alice/udr", githubToken := none }
        "d1.amplifyapp.com" "app1" "us-east-1").appName
      = "universal-deep-research" ∧
    (mkUDRFrontendStack
        { backendUrl := some "http://backend.example"
          githubRepo := some "alice/udr", githubToken := none }
        "d1.amplifyapp.com" "app1" "us-east-1").sourceCodeProvider
      = none := by
  exact ⟨rfl, rfl⟩

/-- C2 amended: when exactly one of the repository identifier and the
credential reference is supplied, provisioning does not raise any error:
it falls back to the disconnected path (the application shell is created
with no source-repository binding), and the webhook placeholder branch is
added exactly when the repository identifier is absent. -/
theorem frontend_partial_config_takes_disconnected_path
    (props : UDRFrontendStackProps) (d a r : String)
    (h : truthy props.githubRepo ≠ truthy props.githubToken) :
    (mkUDRFrontendStack props d a r).appName = "universal-deep-research" ∧
    (mkUDRFrontendStack props d a r).sourceCodeProvider = none ∧
    (mkUDRFrontendStack props d a r).webhookBranch.isSome
      = !(truthy props.githubRepo) := by
  unfold mkUDRFrontendStack
  cases hr : truthy props.githubRepo <;> cases ht : truthy props.githubToken <;>
    simp_all [connectedFrontendStack, disconnectedFrontendStack, addWebhookBranch]

theorem frontend_partial_config_takes_disconnected_path_witness :
    truthy (some "alice/udr") ≠ truthy (none : Option String) ∧
    ((mkUDRFrontendStack
        { backendUrl := none, githubRepo := some "alice/udr", githubToken := none }
        "d1.amplifyapp.com" "app1" "us-east-1").appName = "universal-deep-research" ∧
     (mkUDRFrontendStack
        { backendUrl := none, githubRepo := some "alice/udr", githubToken := none }
        "d1.amplifyapp.com" "app1" "us-east-1").sourceCodeProvider = none ∧
     (mkUDRFrontendStack
        { backendUrl := none, githubRepo := some "alice/udr", githubToken := none }
        "d1.amplifyapp.com" "app1" "us-east-1").webhookBranch.isSome
        = !(truthy (some "alice/udr"))) :=
  ⟨by decide,
   frontend_partial_config_takes_disconnected_path
     { backendUrl := none, githubRepo := some "alice/udr", githubToken := none }
     "d1.amplifyapp.com" "app1" "us-east-1" (by decide)⟩

/-- C5: with neither a repository identifier nor a credential reference,
the constructor succeeds via the disconnected path (shell created, no
source binding, tracked `main` branch), additionally creates the
non-auto-building `webhook` placeholder branch, and exposes the
manual-trigger webhook URL as the `WebhookURL` output. -/
theorem disconnected_path_provisions_webhook (b : Option String) (d a r : String) :
    (mkUDRFrontendStack { backendUrl := b, githubRepo := none, githubToken := none }
        d a r).appName = "universal-deep-research" ∧
    (mkUDRFrontendStack { backendUrl := b, githubRepo := none, githubToken := none }
        d a r).sourceCodeProvider = none ∧
    (mkUDRFrontendStack { backendUrl := b, githubRepo := none, githubToken := none }
        d a r).webhookBranch
      = some { autoBuild := false, branchName := "webhook", environmentVariables := [] } ∧
    envLookup "WebhookURL"
      (mkUDRFrontendStack { backendUrl := b, githubRepo := none, githubToken := none }
        d a r).outputs
      = some (webhookUrl a r) := by
  exact ⟨rfl, rfl, rfl, rfl⟩

/-- C7: the backend container's health check polls the container's root
path (`curl -f http://localhost:8000/`) every 30 seconds with a 5 second
timeout, 3 retries, and a 60 second start period before checks count. -/
theorem backend_container_health_check (gatewayUrl albDnsName : String) :
    (mkUDRBackendStack gatewayUrl albDnsName).container.healthCheck
      = { command := ["CMD-SHELL", "curl -f http://localhost:8000/ || exit 1"]
          interval := 30
          timeout := 5
          retries := 3
          startPeriod := 60 } := by
  rfl

/-- C6: the backend listener carries exactly one rule, `CorsAction`, at
priority 100, matching requests whose `Origin` header matches the Amplify
hosting domain pattern `*.amplifyapp.com` and forwarding them to the
backend target group; a request matching that condition is routed by the
rule, and every other request falls through to the listener's default
forwarding action. -/
theorem cors_rule_routing (gatewayUrl albDnsName : String)
    (headers : List (String × String)) :
    (mkUDRBackendStack gatewayUrl albDnsName).listener.rules
      = [ { name := "CorsAction"
            priority := 100
            conditions := [{ headerName := "Origin", patterns := ["*.amplifyapp.com"] }]
            action := ListenerAction.forward ["BackendTargets"] } ] ∧
    (mkUDRBackendStack gatewayUrl albDnsName).listener.defaultAction
      = ListenerAction.forward ["BackendTargets"] ∧
    routeWithSource (mkUDRBackendStack gatewayUrl albDnsName).listener headers
      = (if conditionMatches
            { headerName := "Origin", patterns := ["*.amplifyapp.com"] } headers
         then (some "CorsAction", ListenerAction.forward ["BackendTargets"])
         else (none,
           (mkUDRBackendStack gatewayUrl albDnsName).listener.defaultAction)) := by
  refine ⟨rfl, rfl, ?_⟩
  cases h : conditionMatches
      { headerName := "Origin", patterns := ["*.amplifyapp.com"] } headers <;>
    simp [routeWithSource, mkUDRBackendStack, ruleMatches, bestRule, h]

/-- C3: for every deployment, the gateway output URL is
`http://<gateway-alb-dns>`; the backend container's `LLM_BASE_URL` is
exactly that URL with `/v1` appended (a gateway DNS of `gw.example` yields
`http://gw.example/v1`); and the frontend build environment's
`NEXT_PUBLIC_BACKEND_BASE_URL` is exactly the backend stack's resolved
output URL `http://<backend-alb-dns>`. -/
theorem endpoint_propagation (ctx : DeployContext) (attrs : ResolvedAttrs) :
    (appSynth ctx attrs).gatewayStack.gatewayUrl = "http://" ++ attrs.gatewayAlbDns ∧
    envLookup "LLM_BASE_URL" (appSynth ctx attrs).backendStack.container.environment
      = some ((appSynth ctx attrs).gatewayStack.gatewayUrl ++ "/v1") ∧
    (appSynth ctx attrs).backendStack.backendUrl = "http://" ++ attrs.backendAlbDns ∧
    envLookup "NEXT_PUBLIC_BACKEND_BASE_URL"
      (appSynth ctx attrs).frontendStack.environmentVariables
      = some (appSynth ctx attrs).backendStack.backendUrl := by
  refine ⟨rfl, rfl, rfl, ?_⟩
  have hb : ("http://" ++ attrs.backendAlbDns) ≠ "" := http_prefix_ne_empty _
  show envLookup "NEXT_PUBLIC_BACKEND_BASE_URL"
      (mkUDRFrontendStack
        { backendUrl := some ("http://" ++ attrs.backendAlbDns)
          githubRepo := ctx.githubRepo, githubToken := ctx.githubTokenSecret }
        attrs.amplifyDefaultDomain attrs.amplifyAppId attrs.region).environmentVariables
      = some ("http://" ++ attrs.backendAlbDns)
  rw [mk_frontend_env]
  simp [environmentVariables, envLookup, jsOr, hb]

/-- C4: every synthesis declares the explicit dependencies
backend → gateway and frontend → backend; the only ordering of the three
stacks that respects those dependencies is
gateway, backend, frontend — so the backend never precedes the gateway and
the frontend never precedes the backend — and teardown processes the
reverse of that order: frontend, then backend, then gateway. -/
theorem stack_dependency_linear_order (ctx : DeployContext) (attrs : ResolvedAttrs) :
    (appSynth ctx attrs).nodes = appStackNodes ∧
    validDeployOrders appStackNodes
      = [["BedrockGatewayStack", "UDRBackendStack", "UDRFrontendStack"]] ∧
    teardownOrder ["BedrockGatewayStack", "UDRBackendStack", "UDRFrontendStack"]
      = ["UDRFrontendStack", "UDRBackendStack", "BedrockGatewayStack"] := by
  exact ⟨rfl, by decide, rfl⟩

/-- C8: the connected and disconnected provisioning paths yield the same
build specification whenever they are given the same backend URL input
(the specification does not depend on the repository or credential
inputs); that specification is exactly the one from the source — pre-build
`cd frontend` and `npm ci`, build `npm run build`, artifacts from
`frontend/.next`, node-modules and Next build caches — and both paths
compute the hosted URL as `https://<branch>.<default-domain>`. -/
theorem build_spec_identical_across_paths
    (p1 p2 : UDRFrontendStackProps) (d a r d2 a2 r2 : String)
    (h : p1.backendUrl = p2.backendUrl) :
    (mkUDRFrontendStack p1 d a r).buildSpec = (mkUDRFrontendStack p2 d2 a2 r2).buildSpec ∧
    (mkUDRFrontendStack p1 d a r).buildSpec =
      { version := "1.0"
        preBuildCommands := ["cd frontend", "npm ci --cache .npm --prefer-offline"]
        buildCommands := ["npm run build"]
        artifactsBaseDirectory := "frontend/.next"
        artifactsFiles := ["**/*"]
        cachePaths := ["frontend/node_modules/**/*", "frontend/.next/cache/**/*"]
        envVariables := environmentVariables p1 } ∧
    (mkUDRFrontendStack p1 d a r).frontendUrl
      = "https://" ++ (mkUDRFrontendStack p1 d a r).mainBranch.branchName ++ "." ++ d := by
  refine ⟨?_, ?_, mk_frontend_url p1 d a r⟩
  · rw [mk_frontend_buildSpec, mk_frontend_buildSpec]
    simp [frontendBuildSpec, environmentVariables_congr p1 p2 h]
  · rw [mk_frontend_buildSpec]
    rfl

theorem build_spec_identical_across_paths_witness :
    (UDRFrontendStackProps.mk (some "http://b.example") (some "alice/udr")
        (some "github-token")).backendUrl
      = (UDRFrontendStackProps.mk (some "http://b.example") none none).backendUrl ∧
    ((mkUDRFrontendStack
        (UDRFrontendStackProps.mk (some "http://b.example") (some "alice/udr")
          (some "github-token")) "d1" "a1" "r1").buildSpec
      = (mkUDRFrontendStack
          (UDRFrontendStackProps.mk (some "http://b.example") none none)
          "d2" "a2" "r2").buildSpec ∧
     (mkUDRFrontendStack
        (UDRFrontendStackProps.mk (some "http://b.example") (some "alice/udr")
          (some "github-token")) "d1" "a1" "r1").buildSpec =
      { version := "1.0"
        preBuildCommands := ["cd frontend", "npm ci --cache .npm --prefer-offline"]
        buildCommands := ["npm run build"]
        artifactsBaseDirectory := "frontend/.next"
        artifactsFiles := ["**/*"]
        cachePaths := ["frontend/node_modules/**/*", "frontend/.next/cache/**/*"]
        envVariables := environmentVariables
          (UDRFrontendStackProps.mk (some "http://b.example") (some "alice/udr")
            (some "github-token")) } ∧
     (mkUDRFrontendStack
        (UDRFrontendStackProps.mk (some "http://b.example") (some "alice/udr")
          (some "github-token")) "d1" "a1" "r1").frontendUrl
      = "https://" ++ (mkUDRFrontendStack
          (UDRFrontendStackProps.mk (some "http://b.example") (some "alice/udr")
            (some "github-token")) "d1" "a1" "r1").mainBranch.branchName ++ "." ++ "d1") :=
  ⟨rfl,
   build_spec_identical_across_paths
     (UDRFrontendStackProps.mk (some "http://b.example") (some "alice/udr")
       (some "github-token"))
     (UDRFrontendStackProps.mk (some "http://b.example") none none)
     "d1" "a1" "r1" "d2" "a2" "r2" rfl⟩

/-- C9: synthesis is a pure function of the context parameters and the
resolved attributes — synthesizing twice with identical inputs produces an
identical resource graph. -/
theorem synth_deterministic (ctx1 ctx2 : DeployContext) (attrs1 attrs2 : ResolvedAttrs)
    (hc : ctx1 = ctx2) (ha : attrs1 = attrs2) :
    appSynth ctx1 attrs1 = appSynth ctx2 attrs2 := by
  rw [hc, ha]

theorem synth_deterministic_witness :
    DeployContext.mk (some "alice/udr") (some "github-token")
      = DeployContext.mk (some "alice/udr") (some "github-token") ∧
    ResolvedAttrs.mk "gw.example" "backend.example" "d1.amplifyapp.com" "app1" "us-east-1"
      = ResolvedAttrs.mk "gw.example" "backend.example" "d1.amplifyapp.com" "app1" "us-east-1" ∧
    appSynth (DeployContext.mk (some "alice/udr") (some "github-token"))
        (ResolvedAttrs.mk "gw.example" "backend.example" "d1.amplifyapp.com" "app1" "us-east-1")
      = appSynth (DeployContext.mk (some "alice/udr") (some "github-token"))
        (ResolvedAttrs.mk "gw.example" "backend.example" "d1.amplifyapp.com" "app1" "us-east-1") :=
  ⟨rfl, rfl,
   synth_deterministic
     (DeployContext.mk (some "alice/udr") (some "github-token"))
     (DeployContext.mk (some "alice/udr") (some "github-token"))
     (ResolvedAttrs.mk "gw.example" "backend.example" "d1.amplifyapp.com" "app1" "us-east-1")
     (ResolvedAttrs.mk "gw.example" "backend.example" "d1.amplifyapp.com" "app1" "us-east-1")
     rfl rfl⟩

/-- C10: when the backend URL input is omitted or empty, the build
environment's `NEXT_PUBLIC_BACKEND_BASE_URL` falls back to the fixed
value `http://localhost:8000` (the `||` default in the source). -/
theorem backend_url_fallback (props : UDRFrontendStackProps) (d a r : String)
    (h : props.backendUrl = none ∨ props.backendUrl = some "") :
    envLookup "NEXT_PUBLIC_BACKEND_BASE_URL"
      (mkUDRFrontendStack props d a r).environmentVariables
      = some "http://localhost:8000" := by
  rw [mk_frontend_env]
  rcases h with h | h <;> simp [environmentVariables, envLookup, jsOr, h]

theorem backend_url_fallback_witness :
    ((UDRFrontendStackProps.mk none none none).backendUrl = none ∨
      (UDRFrontendStackProps.mk none none none).backendUrl = some "") ∧
    envLookup "NEXT_PUBLIC_BACKEND_BASE_URL"
      (mkUDRFrontendStack (UDRFrontendStackProps.mk none none none)
        "d1.amplifyapp.com" "app1" "us-east-1").environmentVariables
      = some "http://localhost:8000" :=
  ⟨Or.inl rfl,
   backend_url_fallback (UDRFrontendStackProps.mk none none none)
     "d1.amplifyapp.com" "app1" "us-east-1" (Or.inl rfl)⟩

end UDR
